import Mathlib

/-!
Verification of the nacin-india/os terminal dashboard.

The repository is a Go program (several near-duplicate revisions are
bundled) that samples host metrics and renders them in a tview terminal
UI.  This file gives a shallow embedding of the code: every external
probe outcome (gopsutil calls, `nvidia-smi` / `sensors` subprocess
output, interface enumeration, the wall clock second) is a field of an
environment record, and each Go function becomes a total Lean function
of that environment, translated line by line from the source.

Naming: namespace `pkgSystem` embeds `src/pkg/system/info.go`,
`part001` embeds `src/unnamed/part_001`, `serverSystem` embeds the
`package system` revision inside `src/ui/layout.go`, `pkgUI` embeds the
first revision of `src/pkg/ui/layout.go` (`updateSystemInfoPeriodically`),
`pkgUI2` its second revision (`UpdateSystemInfo`), `srcUI` the
`src/ui/layout.go` renderer, `goMain` the two `main` revisions.
-/

namespace NacinOS

/-! ## Generic string helpers (Go `fmt`/`strings` counterparts) -/

/-- Pad `s` on the left with `c` up to width `w` (Go `%02d` / `%2d` padding). -/
def padLeftWith (c : Char) (w : Nat) (s : String) : String :=
  if s.length < w then String.mk (List.replicate (w - s.length) c) ++ s else s

/-- Is `pat` a leading block of `s`?  Helper for substring search. -/
def listHasPre : List Char → List Char → Bool
  | [], _ => true
  | _ :: _, [] => false
  | a :: as, b :: bs => a == b && listHasPre as bs

/-- Does `pat` occur contiguously inside `s`?  Helper for substring search. -/
def listContains : List Char → List Char → Bool
  | s, pat =>
    listHasPre pat s ||
      match s with
      | [] => false
      | _ :: t => listContains t pat

/-- Go `strings.Contains s pat` (boolean substring test). -/
def textContains (s pat : String) : Bool :=
  listContains s.data pat.data

/-- Propositional substring containment: `pat` occurs inside `s`. -/
def containsStr (s pat : String) : Prop :=
  ∃ a b, s = a ++ pat ++ b

/-- Round to the nearest integer, ties to even — the rounding used by
Go's `%.Nf` float formatting, transported to exact rationals. -/
def roundHalfEven (q : ℚ) : ℤ :=
  let f := ⌊q⌋
  let r := q - f
  if r < 1 / 2 then f
  else if 1 / 2 < r then f + 1
  else if f % 2 = 0 then f else f + 1

/-- Go's float-to-int conversion `int(x)`: truncation toward zero. -/
def goTrunc (q : ℚ) : ℤ :=
  if q < 0 then -⌊-q⌋ else ⌊q⌋

/-- Go `fmt.Sprintf("%.Df", q)`: fixed-point decimal with `d` digits
after the point, rounding half to even, keeping the sign of a negative
argument. -/
def fmtFixed (d : Nat) (q : ℚ) : String :=
  let scaled := roundHalfEven (|q| * ((10 : ℚ) ^ d))
  let n := scaled.toNat
  let base := 10 ^ d
  let s := toString (n / base) ++
    (if d = 0 then "" else "." ++ padLeftWith '0' d (toString (n % base)))
  if q < 0 then "-" ++ s else s

/-- Digits of a decimal string as a number (caller guarantees digits only). -/
def digitsToNat (s : String) : Nat :=
  s.data.foldl (fun n c => n * 10 + (c.toNat - '0'.toNat)) 0

/-- Go `fmt.Sscanf(s, "%d", &t)` after trimming: reads an optional sign
and a leading run of digits; on failure the target keeps its zero value. -/
def sscanfInt (s : String) : ℤ :=
  let (sign, rest) :=
    if s.startsWith "-" then ((-1 : ℤ), s.drop 1)
    else if s.startsWith "+" then (1, s.drop 1) else (1, s)
  let digits := rest.takeWhile Char.isDigit
  if digits.isEmpty then 0 else sign * (digitsToNat digits : ℤ)

/-! ## Model of Go `net` values

A Go `net.IP` is a byte slice of length 4 (IPv4) or 16 (IPv6, possibly
IPv4-mapped); we model it as a `List Nat` of bytes, with `To4`,
`IsLoopback` and `String` translated from the Go standard library's
semantics.  An interface address is either `*net.IPNet`, `*net.IPAddr`,
or some other type (which the collector's type switch leaves as nil). -/

/-- A Go `net.IP`: its byte slice. -/
abbrev GoIP := List Nat

/-- `net.IP.To4`: the 4-byte form of an IPv4 or IPv4-mapped address. -/
def ipTo4 (ip : GoIP) : Option GoIP :=
  if ip.length == 4 then some ip
  else if ip.length == 16 && (ip.take 10).all (· == 0)
      && ip.getD 10 0 == 255 && ip.getD 11 0 == 255 then
    some (ip.drop 12)
  else none

/-- `net.IP.IsLoopback`: 127.0.0.0/8 for IPv4 forms, `::1` for IPv6. -/
def ipIsLoopback (ip : GoIP) : Bool :=
  match ipTo4 ip with
  | some ip4 => ip4.getD 0 0 == 127
  | none => ip == List.replicate 15 0 ++ [1]

/-- `net.IP.String` for a 4-byte address: dotted decimal. -/
def ipv4String (ip4 : GoIP) : String :=
  String.intercalate "." (ip4.map toString)

/-- One entry of `iface.Addrs()`: the cases of the collector's type switch. -/
inductive GoAddr where
  | ipNet (ip : GoIP)
  | ipAddr (ip : GoIP)
  | otherAddr
deriving DecidableEq

/-- The IP the type switch extracts from an address (`nil` for other types). -/
def addrIP : GoAddr → Option GoIP
  | .ipNet ip => some ip
  | .ipAddr ip => some ip
  | .otherAddr => none

/-- A Go `net.Interface` together with the outcome of its `Addrs()` call
(`none` models `Addrs()` returning an error). -/
structure GoInterface where
  name : String
  flagLoopback : Bool
  flagUp : Bool
  addrs : Option (List GoAddr)
deriving DecidableEq

/-! ## `getIPAddresses` — three revisions -/

namespace pkgSystem

/-- Body of the inner `for _, addr := range ifAddrs` loop of
`getIPAddresses` in `src/pkg/system/info.go` (lines 141–158): type
switch, nil/loopback skip, IPv4-only append. -/
def ipEntryFold (ifaceName : String) (acc2 : List String) (addr : GoAddr) : List String :=
  match addrIP addr with
  | none => acc2
  | some ip =>
    if ipIsLoopback ip then acc2
    else
      match ipTo4 ip with
      | some ipv4 => acc2 ++ [ipv4String ipv4 ++ " (" ++ ifaceName ++ ")"]
      | none => acc2

/-- Body of the outer `for _, iface := range ifaces` loop (lines
130–159): skip loopback interfaces and interfaces whose `Addrs()`
errored. -/
def ifaceStep (acc : List String) (iface : GoInterface) : List String :=
  if iface.flagLoopback then acc
  else
    match iface.addrs with
    | none => acc
    | some ifAddrs => ifAddrs.foldl (ipEntryFold iface.name) acc

/-- `getIPAddresses` from `src/pkg/system/info.go` (lines 123–166).
The argument is the result of `net.Interfaces()` (`none` = error). -/
def getIPAddresses (ifaces? : Option (List GoInterface)) : List String :=
  match ifaces? with
  | none => ["Error getting network interfaces"]
  | some ifaces =>
    let addrs := ifaces.foldl ifaceStep []
    if addrs.length == 0 then ["No IPv4 addresses found"] else addrs

end pkgSystem

namespace part001

/-- Body of the inner address loop of `getIPAddresses` in
`src/unnamed/part_001` (lines 96–110): the condensed condition
`ip != nil && !ip.IsLoopback() && ip.To4() != nil`. -/
def ipEntryFold (ifaceName : String) (acc2 : List String) (addr : GoAddr) : List String :=
  match addrIP addr with
  | none => acc2
  | some ip =>
    if !ipIsLoopback ip then
      match ipTo4 ip with
      | some ipv4 => acc2 ++ [ipv4String ipv4 ++ " (" ++ ifaceName ++ ")"]
      | none => acc2
    else acc2

/-- Body of the outer interface loop (lines 85–111). -/
def ifaceStep (acc : List String) (iface : GoInterface) : List String :=
  if iface.flagLoopback then acc
  else
    match iface.addrs with
    | none => acc
    | some ifAddrs => ifAddrs.foldl (ipEntryFold iface.name) acc

/-- `getIPAddresses` from `src/unnamed/part_001` (lines 77–115): same
filter as `pkgSystem`, and the sentinel reads "No IP addresses found". -/
def getIPAddresses (ifaces? : Option (List GoInterface)) : List String :=
  match ifaces? with
  | none => ["Error getting network interfaces"]
  | some ifaces =>
    let addrs := ifaces.foldl ifaceStep []
    if addrs.length == 0 then ["No IP addresses found"] else addrs

end part001

namespace serverSystem

/-- Body of the inner address loop of `getIPAddresses` in the
`src/ui/layout.go` system revision (lines 412–429): the appended entry
is `http://<ip>/ (<iface>)`. -/
def ipEntryFold (ifaceName : String) (acc2 : List String) (addr : GoAddr) : List String :=
  match addrIP addr with
  | none => acc2
  | some ip =>
    if ipIsLoopback ip then acc2
    else
      match ipTo4 ip with
      | some ipv4 => acc2 ++ ["http://" ++ ipv4String ipv4 ++ "/ (" ++ ifaceName ++ ")"]
      | none => acc2

/-- Body of the outer interface loop (lines 401–430). -/
def ifaceStep (acc : List String) (iface : GoInterface) : List String :=
  if iface.flagLoopback then acc
  else
    match iface.addrs with
    | none => acc
    | some ifAddrs => ifAddrs.foldl (ipEntryFold iface.name) acc

/-- `getIPAddresses` from the `package system` revision embedded in
`src/ui/layout.go` (lines 392–437): formats each address as
`http://<ip>/ (<iface>)`. -/
def getIPAddresses (ifaces? : Option (List GoInterface)) : List String :=
  match ifaces? with
  | none => ["Error getting network interfaces"]
  | some ifaces =>
    let addresses := ifaces.foldl ifaceStep []
    if addresses.length == 0 then ["No IPv4 addresses found"] else addresses

end serverSystem

/-- Modelled from the spec (§4.1): the entries one interface contributes
— its addresses with a valid, non-loopback IPv4 form, formatted as
`"<ip> (<ifaceName>)"` (an interface whose address query failed
contributes nothing). -/
def specEntriesOf (i : GoInterface) : List String :=
  (i.addrs.getD []).filterMap
    (fun a =>
      (addrIP a).bind (fun ip =>
        if ipIsLoopback ip then none
        else (ipTo4 ip).map (fun ipv4 => ipv4String ipv4 ++ " (" ++ i.name ++ ")")))

/-- Modelled from the spec (§4.1, §8): the qualifying address list — skip
loopback interfaces, keep only addresses with a valid IPv4 form that are
not loopback, format as `"<ip> (<ifaceName>)"`.  Used to compare the
code's filter against the spec's description. -/
def specQualifiedAddrs (ifaces : List GoInterface) : List String :=
  (ifaces.filter (fun i => !i.flagLoopback)).flatMap specEntriesOf

/-! ## Probe data (results of the gopsutil / subprocess calls) -/

/-- Data behind the `*host.InfoStat` pointer returned by `host.Info()`.
gopsutil returns a usable (possibly zero-valued) struct even alongside an
error, so the data is modelled separately from the error flag. -/
structure HostData where
  platform : String
  platformVersion : String
  platformFamily : String
  uptime : Nat
deriving DecidableEq

/-- One entry of the slice returned by `cpu.Info()`. -/
structure CpuCore where
  modelName : String
  mhz : ℚ
deriving DecidableEq

/-- Data behind `mem.VirtualMemory()`. -/
structure MemData where
  total : Nat
  used : Nat
  usedPercent : ℚ
deriving DecidableEq

/-- One entry of `disk.Partitions(false)`. -/
structure PartitionData where
  mountpoint : String
deriving DecidableEq

/-- Data behind `disk.Usage(mountpoint)`. -/
structure UsageData where
  total : Nat
  used : Nat
  usedPercent : ℚ
deriving DecidableEq

/-- One entry of `psnet.IOCounters(true)`. -/
structure IOCounterData where
  name : String
  bytesSent : Nat
  bytesRecv : Nat
deriving DecidableEq

namespace pkgSystem

/-- The environment of one `GetSystemInfo()` call in
`src/pkg/system/info.go`: the outcome of every external probe the call
makes.  `none` models the probe returning a non-nil error (for
`host.Info` the error flag is separate because the pointer it returns is
usable either way).  `nowSecond` is `time.Now().Second()`. -/
structure Env where
  goos : String
  hostInfo : HostData
  hostErr : Bool
  cpuInfo : Option (List CpuCore)
  cpuPercent : Option (List ℚ)
  memInfo : Option MemData
  nvidiaSmi : Option String
  sensors : Option String
  partitions : Option (List PartitionData)
  diskUsage : String → Option UsageData
  netIfaces : Option (List GoInterface)
  ioCounters : Option (List IOCounterData)
  nowSecond : Nat

/-- The `SystemInfo` struct of `src/pkg/system/info.go` (lines 19–33). -/
structure SystemInfo where
  CPUInfo : String
  GPUInfo : String
  MemoryInfo : String
  RAMUsage : String
  CPUUsage : String
  UptimeInfo : String
  IPAddresses : List String
  CPUTemp : String
  GPUTemp : String
  DiskInfo : List String
  NetworkInfo : List String
  Platform : String
  OSInfo : String
deriving DecidableEq

/-- `formatDuration` (lines 114–120): `"%d hours %02d minutes %02d seconds"`
of a duration given in whole seconds. -/
def formatDuration (secs : Nat) : String :=
  toString (secs / 3600) ++ " hours " ++
    padLeftWith '0' 2 (toString ((secs / 60) % 60)) ++ " minutes " ++
    padLeftWith '0' 2 (toString (secs % 60)) ++ " seconds"

/-- `getGPUInfo` (lines 169–198): on linux/windows parse the first
usable line of `nvidia-smi --query-gpu=name,temperature.gpu` output; on
darwin report "Apple GPU"; otherwise the defaults stand.  Returns the
description and the parsed temperature (0 when unparsed). -/
def getGPUInfo (env : Env) : String × ℤ :=
  if env.goos == "linux" || env.goos == "windows" then
    match env.nvidiaSmi with
    | none => ("GPU information unavailable", 0)
    | some output =>
      match (output.splitOn "\n").find?
          (fun line => line != "" && (line.splitOn ", ").length ≥ 2) with
      | some line =>
        let parts := line.splitOn ", "
        ((parts.getD 0 "").trim, sscanfInt (parts.getD 1 "").trim)
      | none => ("GPU information unavailable", 0)
  else if env.goos == "darwin" then ("Apple GPU", 0)
  else ("GPU information unavailable", 0)

/-- `getCPUTemperature` (lines 201–224): on linux, 50 when the `sensors -j`
output mentions "temp", otherwise 0; 0 on every other platform. -/
def getCPUTemperature (env : Env) : ℤ :=
  if env.goos == "linux" then
    match env.sensors with
    | some output => if textContains output "temp" then 50 else 0
    | none => 0
  else 0

/-- `getDiskInfo` (lines 227–260): list partitions over 1 GB whose usage
query succeeded, formatted `"%s: %.1f GB / %.1f GB (%d%% used)"`; error
and empty cases yield their sentinel singletons. -/
def getDiskInfo (env : Env) : List String :=
  match env.partitions with
  | none => ["Disk information unavailable"]
  | some parts =>
    let diskInfoList := parts.foldl
      (fun acc p =>
        match env.diskUsage p.mountpoint with
        | none => acc
        | some usage =>
          if usage.total < 1024 * 1024 * 1024 then acc
          else
            acc ++ [p.mountpoint ++ ": " ++
              fmtFixed 1 ((usage.used : ℚ) / (1024 * 1024 * 1024)) ++ " GB / " ++
              fmtFixed 1 ((usage.total : ℚ) / (1024 * 1024 * 1024)) ++ " GB (" ++
              toString (goTrunc usage.usedPercent) ++ "% used)"])
      []
    if diskInfoList.length == 0 then ["No disk information available"]
    else diskInfoList

/-- `getNetworkInfo` (lines 263–301): for each up, non-loopback interface
with matching IO counters, format `"%s: ↑ %.2f MB, ↓ %.2f MB"`; error and
empty cases yield their sentinel singletons. -/
def getNetworkInfo (env : Env) : List String :=
  match env.netIfaces with
  | none => ["Network information unavailable"]
  | some nics =>
    match env.ioCounters with
    | none => ["Network I/O information unavailable"]
    | some ios =>
      let netInfoList := nics.foldl
        (fun acc nic =>
          if nic.flagLoopback || !nic.flagUp then acc
          else
            match ios.find? (fun io => io.name == nic.name) with
            | some io =>
              acc ++ [nic.name ++ ": ↑ " ++
                fmtFixed 2 ((io.bytesSent : ℚ) / (1024 * 1024)) ++ " MB, ↓ " ++
                fmtFixed 2 ((io.bytesRecv : ℚ) / (1024 * 1024)) ++ " MB"]
            | none => acc)
        []
      if netInfoList.length == 0 then ["No active network interfaces found"]
      else netInfoList

/-- `GetSystemInfo` (lines 36–111), translated branch by branch.  Note
the source's `err` variable reuse: the uptime branch (lines 75–80) tests
the `err` left over from `mem.VirtualMemory` while reading `hostInfo`
from the earlier `host.Info` call — the embedding reproduces exactly
that. -/
def GetSystemInfo (env : Env) : SystemInfo :=
  let osInfo :=
    if !env.hostErr then
      env.hostInfo.platform ++ " " ++ env.hostInfo.platformVersion ++
        " (" ++ env.hostInfo.platformFamily ++ ")"
    else "OS information unavailable"
  let cpuInfoStr :=
    match env.cpuInfo with
    | some cpuInfo =>
      if cpuInfo.length > 0 then
        toString cpuInfo.length ++ " x " ++ (cpuInfo.getD 0 ⟨"", 0⟩).modelName ++
          " @ " ++ fmtFixed 2 ((cpuInfo.getD 0 ⟨"", 0⟩).mhz / 1000) ++ " GHz"
      else "CPU information unavailable"
    | none => "CPU information unavailable"
  let cpuUsageStr :=
    match env.cpuPercent with
    | some cpuPercent =>
      if cpuPercent.length > 0 then
        "CPU Usage: " ++ padLeftWith '0' 2 (toString (goTrunc (cpuPercent.getD 0 0))) ++ "%"
      else "CPU Usage: N/A"
    | none => "CPU Usage: N/A"
  let memoryInfoStr :=
    match env.memInfo with
    | some memInfo =>
      fmtFixed 1 ((memInfo.total : ℚ) / (1024 * 1024 * 1024)) ++ " GB System Memory"
    | none => "Memory information unavailable"
  let ramUsageStr :=
    match env.memInfo with
    | some memInfo =>
      "RAM Usage: " ++ padLeftWith '0' 2 (toString (goTrunc memInfo.usedPercent)) ++ "%"
    | none => "RAM Usage: N/A"
  let uptimeInfoStr :=
    match env.memInfo with
    | some _ => "System uptime: " ++ formatDuration env.hostInfo.uptime
    | none => "Uptime information unavailable"
  let gpu := getGPUInfo env
  let gpuTempStr :=
    if gpu.2 > 0 then "GPU Temp: " ++ toString gpu.2 ++ "°C"
    else
      "GPU Temp: " ++
        toString (goTrunc (60 + 10 * ((env.nowSecond % 10 : Nat) : ℚ) / 10)) ++ "°C"
  let cpuTemp := getCPUTemperature env
  let cpuTempStr :=
    if cpuTemp > 0 then "CPU Temp: " ++ toString cpuTemp ++ "°C"
    else
      "CPU Temp: " ++
        toString (goTrunc (45 + 5 * ((env.nowSecond % 10 : Nat) : ℚ) / 10)) ++ "°C"
  { Platform := env.goos
    OSInfo := osInfo
    CPUInfo := cpuInfoStr
    CPUUsage := cpuUsageStr
    MemoryInfo := memoryInfoStr
    RAMUsage := ramUsageStr
    UptimeInfo := uptimeInfoStr
    GPUInfo := gpu.1
    GPUTemp := gpuTempStr
    CPUTemp := cpuTempStr
    DiskInfo := getDiskInfo env
    NetworkInfo := getNetworkInfo env
    IPAddresses := getIPAddresses env.netIfaces }

end pkgSystem

namespace part001

/-- Environment of one `GetSystemInfo()` call in `src/unnamed/part_001`:
there every `hostInfo` use sits inside the `err == nil` branch of its own
probe, so an `Option` models the pointer-and-error pair directly. -/
structure Env where
  goos : String
  hostInfo : Option HostData
  cpuInfo : Option (List CpuCore)
  cpuPercent : Option (List ℚ)
  memInfo : Option MemData
  nvidiaSmi : Option String
  netIfaces : Option (List GoInterface)

/-- The `SystemInfo` struct of `src/unnamed/part_001` (lines 16–28).
Note the `NetworkInfo` field, which `GetSystemInfo` never assigns. -/
structure SystemInfo where
  CPUInfo : String
  GPUInfo : String
  MemoryInfo : String
  RAMUsage : String
  CPUUsage : String
  UptimeInfo : String
  IPAddresses : List String
  NetworkInfo : List String
  Platform : String
  OSInfo : String
deriving DecidableEq

/-- `getGPUInfo` from `src/unnamed/part_001` (lines 118–133): first
non-blank trimmed line of the `nvidia-smi` output, "Apple GPU" on
darwin, else the placeholder. -/
def getGPUInfo (goos : String) (nvidiaSmi : Option String) : String :=
  if goos == "darwin" then "Apple GPU"
  else if goos == "linux" || goos == "windows" then
    match nvidiaSmi with
    | some output =>
      match (output.splitOn "\n").find? (fun line => line.trim != "") with
      | some line => line.trim
      | none => "GPU information unavailable"
    | none => "GPU information unavailable"
  else "GPU information unavailable"

/-- `GetSystemInfo` from `src/unnamed/part_001` (lines 31–75): starts
from a struct literal of placeholders (Go zero values for the fields the
literal omits — `GPUInfo` "" and the nil slices `IPAddresses`,
`NetworkInfo`), then overwrites per successful probe.  `GPUInfo` and
`IPAddresses` are then always reassigned; `NetworkInfo` never is. -/
def GetSystemInfo (env : Env) : SystemInfo :=
  let base : SystemInfo :=
    { Platform := env.goos
      OSInfo := "OS information unavailable"
      CPUInfo := "CPU information unavailable"
      CPUUsage := "CPU Usage: N/A"
      MemoryInfo := "Memory information unavailable"
      RAMUsage := "RAM Usage: N/A"
      UptimeInfo := "Uptime information unavailable"
      GPUInfo := ""
      IPAddresses := []
      NetworkInfo := [] }
  let withHost :=
    match env.hostInfo with
    | some h =>
      { base with
        OSInfo := h.platform ++ " " ++ h.platformVersion ++ " (" ++ h.platformFamily ++ ")"
        UptimeInfo := "Uptime: " ++ toString (h.uptime / 3600) ++ " hours " ++
          padLeftWith '0' 2 (toString ((h.uptime / 60) % 60)) ++ " minutes " ++
          padLeftWith '0' 2 (toString (h.uptime % 60)) ++ " seconds" }
    | none => base
  let withCpu :=
    match env.cpuInfo with
    | some cpuInfo =>
      if cpuInfo.length > 0 then
        { withHost with
          CPUInfo := toString cpuInfo.length ++ " x " ++
            (cpuInfo.getD 0 ⟨"", 0⟩).modelName ++ " @ " ++
            fmtFixed 2 ((cpuInfo.getD 0 ⟨"", 0⟩).mhz / 1000) ++ " GHz" }
      else withHost
    | none => withHost
  let withUsage :=
    match env.cpuPercent with
    | some cpuPercent =>
      if cpuPercent.length > 0 then
        { withCpu with
          CPUUsage := "CPU Usage: " ++
            padLeftWith ' ' 2 (toString (goTrunc (cpuPercent.getD 0 0))) ++ "%" }
      else withCpu
    | none => withCpu
  let withMem :=
    match env.memInfo with
    | some memInfo =>
      { withUsage with
        MemoryInfo := fmtFixed 1 ((memInfo.total : ℚ) / (1000 * 1000 * 1000)) ++
          " GB System Memory (" ++
          fmtFixed 2 ((memInfo.used : ℚ) / (1000 * 1000 * 1000)) ++ " GB Used)"
        RAMUsage := "RAM Usage: " ++
          padLeftWith ' ' 2 (toString (goTrunc memInfo.usedPercent)) ++ "%" }
    | none => withUsage
  { withMem with
    GPUInfo := getGPUInfo env.goos env.nvidiaSmi
    IPAddresses := getIPAddresses env.netIfaces }

end part001

namespace serverSystem

/-- Environment of one `GetSystemInfo()` call in the `package system`
revision of `src/ui/layout.go` (lines 326–377). -/
structure Env where
  cpuInfo : Option (List CpuCore)
  cpuPercent : Option (List ℚ)
  memInfo : Option MemData
  hostInfo : Option HostData
  netIfaces : Option (List GoInterface)
  nowSecond : Nat

/-- The `SystemInfo` struct of that revision (lines 313–324). -/
structure SystemInfo where
  CPUInfo : String
  GPUInfo : String
  MemoryInfo : String
  RAMUsage : String
  CPUUsage : String
  UptimeInfo : String
  IPAddresses : List String
  CPUTemp : String
  GPUTemp : String
deriving DecidableEq

/-- `formatDuration` of that revision (lines 380–390), with a days form. -/
def formatDuration (secs : Nat) : String :=
  let days := secs / 86400
  let hours := (secs / 3600) % 24
  let minutes := (secs / 60) % 60
  let seconds := secs % 60
  if days > 0 then
    toString days ++ " days, " ++ toString hours ++ " hours, " ++
      toString minutes ++ " minutes, " ++ toString seconds ++ " seconds"
  else
    toString hours ++ " hours, " ++ toString minutes ++ " minutes, " ++
      toString seconds ++ " seconds"

/-- `GetSystemInfo` of that revision (lines 327–377): `%.1f` percent
formats, a hard-coded GPU description, and always-simulated
temperatures. -/
def GetSystemInfo (env : Env) : SystemInfo :=
  let cpuInfoStr :=
    match env.cpuInfo with
    | some cpuInfo =>
      if cpuInfo.length > 0 then
        toString cpuInfo.length ++ " x " ++ (cpuInfo.getD 0 ⟨"", 0⟩).modelName ++
          " @ " ++ fmtFixed 2 ((cpuInfo.getD 0 ⟨"", 0⟩).mhz / 1000) ++ " GHz"
      else "CPU information unavailable"
    | none => "CPU information unavailable"
  let cpuUsageStr :=
    match env.cpuPercent with
    | some cpuPercent =>
      if cpuPercent.length > 0 then
        "CPU Usage: " ++ fmtFixed 1 (cpuPercent.getD 0 0) ++ "%"
      else "CPU Usage: N/A"
    | none => "CPU Usage: N/A"
  let memInfoStr :=
    match env.memInfo with
    | some memInfo =>
      fmtFixed 1 ((memInfo.total : ℚ) / (1024 * 1024 * 1024)) ++ " GB System Memory"
    | none => "Memory information unavailable"
  let ramUsageStr :=
    match env.memInfo with
    | some memInfo => "RAM Usage: " ++ fmtFixed 1 memInfo.usedPercent ++ "%"
    | none => "RAM Usage: N/A"
  let uptimeStr :=
    match env.hostInfo with
    | some h => "System uptime: " ++ formatDuration h.uptime
    | none => "Uptime information unavailable"
  { CPUInfo := cpuInfoStr
    GPUInfo := "NVIDIA GeForce RTX 3080 (10GB VRAM)"
    MemoryInfo := memInfoStr
    RAMUsage := ramUsageStr
    CPUUsage := cpuUsageStr
    UptimeInfo := uptimeStr
    IPAddresses := getIPAddresses env.netIfaces
    CPUTemp := "CPU Temp: " ++
      fmtFixed 1 (45 + 5 * ((env.nowSecond % 10 : Nat) : ℚ) / 10) ++ "°C"
    GPUTemp := "GPU Temp: " ++
      fmtFixed 1 (60 + 10 * ((env.nowSecond % 10 : Nat) : ℚ) / 10) ++ "°C" }

end serverSystem

/-! ## UI: render text and the update-loop shape

The update loops all have the shape
`for { app.QueueUpdateDraw(func() { ... }); time.Sleep(interval) }`.
`QueueUpdateDraw` hands its closure to the tview application's single
event-loop goroutine (the render thread), which executes queued closures
one at a time between input handling and drawing.  The closure's body is
modelled as the ordered list of its actions; a cycle is that queued list
plus the sleep that follows it on the background goroutine. -/

/-- The text panels the update closures write to. -/
inductive Panel where
  | header
  | stats
  | middle
  | copyright
deriving DecidableEq

/-- One action inside a queued update closure: the
`system.GetSystemInfo()` call or a `SetText` on a panel. -/
inductive UIEvent where
  | collectCall
  | setText (p : Panel)
deriving DecidableEq

/-- One iteration of an update loop: the closure queued onto the render
thread (its actions in source order) and the sleep that follows. -/
structure CycleShape where
  queuedUpdateDraw : List UIEvent
  sleepMs : Nat
deriving DecidableEq

/-- A phase of the background goroutine's cycle, in order. -/
inductive Phase where
  | queuedUpdateDraw (events : List UIEvent)
  | sleep (ms : Nat)
deriving DecidableEq

/-- The ordered phases of one loop iteration: queue first, then sleep. -/
def cyclePhases (c : CycleShape) : List Phase :=
  [.queuedUpdateDraw c.queuedUpdateDraw, .sleep c.sleepMs]

/-- The background goroutine's trace over its first `n` iterations. -/
def loopTrace (c : CycleShape) : Nat → List Phase
  | 0 => []
  | n + 1 => cyclePhases c ++ loopTrace c n

/-- The render thread executes queued closures strictly one after
another: its event trace is the concatenation of the queued bodies. -/
def eventLoopRun (cs : List CycleShape) : List UIEvent :=
  cs.flatMap (·.queuedUpdateDraw)

namespace pkgUI

/-- Header text built by `updateSystemInfoPeriodically` in
`src/pkg/ui/layout.go` (lines 124–128). -/
def headerText (info : pkgSystem.SystemInfo) : String :=
  "\n\n[::b]NACIN EXAM SERVER[::]\n\n[::b]Sar Infocom Virtual Platform[::]\n\n[::b]" ++
    info.CPUInfo ++ "[::]\n[::b]" ++ info.MemoryInfo ++ "[::]\n[::b]" ++
    info.GPUInfo ++ "[::]\n[::b]" ++ info.UptimeInfo ++ "[::]\n\n"

/-- Stats-panel text (lines 131–135). -/
def statsText (info : pkgSystem.SystemInfo) : String :=
  "\n[::b]System Usage:[::]\n[::b]" ++ info.CPUUsage ++ "[::]\n[::b]" ++
    info.RAMUsage ++ "[::]\n[::b]" ++ info.CPUTemp ++ "[::]\n[::b]" ++
    info.GPUTemp ++ "[::]"

/-- Middle-panel text: the IP list loop (lines 138–142). -/
def middleText (ips : List String) : String :=
  ips.foldl (fun t ip => t ++ "[::b]" ++ ip ++ "[::]\n") "\n[::b]IP addresses:[::]\n"

/-- The loop body of `updateSystemInfoPeriodically` (lines 118–147): one
closure queued per iteration — collect, then set the header, stats and
middle panels — followed by `time.Sleep(900 * time.Millisecond)`. -/
def updateCycle : CycleShape :=
  { queuedUpdateDraw :=
      [.collectCall, .setText .header, .setText .stats, .setText .middle]
    sleepMs := 900 }

end pkgUI

namespace pkgUI2

/-- The loop body of `UpdateSystemInfo` — the second revision bundled in
`src/pkg/ui/layout.go` (lines 260–289), the one `src/main.go` calls:
same queued closure shape, but `time.Sleep(2 * time.Second)`. -/
def updateCycle : CycleShape :=
  { queuedUpdateDraw :=
      [.collectCall, .setText .header, .setText .stats, .setText .middle]
    sleepMs := 2000 }

end pkgUI2

namespace srcUI

/-- Stats-panel text of `updateSystemInfoPeriodically` in
`src/ui/layout.go` (lines 139–141): CPU and RAM usage only. -/
def statsText (info : serverSystem.SystemInfo) : String :=
  "\n[::b]" ++ info.CPUUsage ++ "[::]\n[::b]" ++ info.RAMUsage ++ "[::]\n"

/-- Middle-panel text: the IP list loop (lines 143–146). -/
def middleText (ips : List String) : String :=
  ips.foldl (fun t ip => t ++ "[::b]" ++ ip ++ "[::]\n") "\n[::b]IP addresses:[::]\n"

/-- The loop body of `updateSystemInfoPeriodically` in `src/ui/layout.go`
(lines 122–153): collect, then set header, copyright, stats and middle;
then `time.Sleep(900 * time.Millisecond)`. -/
def updateCycle : CycleShape :=
  { queuedUpdateDraw :=
      [.collectCall, .setText .header, .setText .copyright,
        .setText .stats, .setText .middle]
    sleepMs := 900 }

end srcUI

/-! ## Input handling and the application shell -/

/-- A tcell key event, as the input-capture handler distinguishes them:
`tcell.KeyEscape`, `tcell.KeyCtrlC`, or any other key (by code). -/
inductive GoKey where
  | escape
  | ctrlC
  | keyOther (code : Nat)
deriving DecidableEq

/-- The application state the handler can affect: whether a stop has
been requested.  `tview.Application.Stop` just signals the main loop to
terminate; calling it again is a no-op. -/
structure AppState where
  stopped : Bool
deriving DecidableEq

/-- `Application.Stop`. -/
def appStop (_s : AppState) : AppState := { stopped := true }

/-- The `SetInputCapture` handler shared by every revision
(`src/pkg/ui/layout.go` lines 104–109 and the like): stop on escape or
Ctrl-C, and return the event unmodified. -/
def inputCapture (st : AppState) (ev : GoKey) : AppState × GoKey :=
  if ev = .escape ∨ ev = .ctrlC then (appStop st, ev) else (st, ev)

/-- Feeding a whole key sequence through the handler: the final state
and the events passed on to the rest of the UI. -/
def processKeys (st : AppState) (ks : List GoKey) : AppState × List GoKey :=
  ks.foldl (fun acc k =>
    let r := inputCapture acc.1 k
    (r.1, acc.2 ++ [r.2])) (st, [])

namespace goMain

/-- `main` from `src/main.go` (lines 21–23): a failed `Run` is passed to
`panic(err)`.  The Go runtime prints `panic: <error>` (followed by a
stack trace, elided here) on standard error and exits with status 2.
The result is the exit status and the standard-error text. -/
def mainPkg (runErr : Option String) : Nat × String :=
  match runErr with
  | none => (0, "")
  | some e => (2, "panic: " ++ (e ++ "\n"))

/-- `main` from `src/unnamed/part_002` (lines 9–13):
`log.Fatalf("Application error: %v", err)` writes the message to
standard error behind the logger's timestamp `ts` and exits with
status 1. -/
def mainPart002 (ts : String) (runErr : Option String) : Nat × String :=
  match runErr with
  | none => (0, "")
  | some e => (1, ts ++ ("Application error: " ++ (e ++ "\n")))

end goMain

/-! ## Distinguished environments and snapshot predicates -/

namespace pkgSystem

/-- Snapshot completeness: every field of the struct is populated — no
empty string, no empty (Go: nil) list. -/
def SnapshotComplete (s : SystemInfo) : Prop :=
  s.CPUInfo ≠ "" ∧ s.GPUInfo ≠ "" ∧ s.MemoryInfo ≠ "" ∧ s.RAMUsage ≠ "" ∧
    s.CPUUsage ≠ "" ∧ s.UptimeInfo ≠ "" ∧ s.IPAddresses ≠ [] ∧
    s.CPUTemp ≠ "" ∧ s.GPUTemp ≠ "" ∧ s.DiskInfo ≠ [] ∧
    s.NetworkInfo ≠ [] ∧ s.Platform ≠ "" ∧ s.OSInfo ≠ ""

/-- An environment on linux in which every sub-probe fails (every
gopsutil call errors, both subprocesses fail, interface enumeration
errors), sampled at clock second 0. -/
def allFailEnv : Env :=
  { goos := "linux"
    hostInfo := ⟨"", "", "", 0⟩
    hostErr := true
    cpuInfo := none
    cpuPercent := none
    memInfo := none
    nvidiaSmi := none
    sensors := none
    partitions := none
    diskUsage := fun _ => none
    netIfaces := none
    ioCounters := none
    nowSecond := 0 }

/-- The end-to-end stub of spec §8: CPU usage 42.0, memory used 77.0 %,
and the single interface address ("10.0.0.5", "eth0"). -/
def stubEnv : Env :=
  { goos := "linux"
    hostInfo := ⟨"linux", "6.1", "debian", 3600⟩
    hostErr := false
    cpuInfo := some [⟨"Intel Xeon", 2400⟩]
    cpuPercent := some [42]
    memInfo := some ⟨8589934592, 4294967296, 77⟩
    nvidiaSmi := none
    sensors := none
    partitions := none
    diskUsage := fun _ => none
    netIfaces := some [⟨"eth0", false, true, some [.ipNet [10, 0, 0, 5]]⟩]
    ioCounters := none
    nowSecond := 0 }

end pkgSystem

namespace serverSystem

/-- The same §8 stub for the `src/ui/layout.go` system revision. -/
def stubEnv : Env :=
  { cpuInfo := some [⟨"Intel Xeon", 2400⟩]
    cpuPercent := some [42]
    memInfo := some ⟨8589934592, 4294967296, 77⟩
    hostInfo := some ⟨"linux", "6.1", "debian", 3600⟩
    netIfaces := some [⟨"eth0", false, true, some [.ipNet [10, 0, 0, 5]]⟩]
    nowSecond := 0 }

end serverSystem

namespace part001

/-- An all-probes-fail environment for the part_001 revision. -/
def allFailEnv : Env :=
  { goos := "linux"
    hostInfo := none
    cpuInfo := none
    cpuPercent := none
    memInfo := none
    nvidiaSmi := none
    netIfaces := none }

end part001

/-- The terminate keys of the input handler, as a boolean test. -/
def isTerminateKey (k : GoKey) : Bool :=
  k == .escape || k == .ctrlC

/-! ## Helper lemmas -/

lemma eq_empty_of_length_eq_zero {s : String} (h : s.length = 0) : s = "" := by
  cases s with
  | mk data =>
    cases data with
    | nil => rfl
    | cons a t => simp [String.length] at h

lemma str_app_ne_empty_right (a : String) {b : String} (hb : b ≠ "") : a ++ b ≠ "" := by
  intro h
  apply hb
  apply eq_empty_of_length_eq_zero
  have hl := congrArg String.length h
  rw [String.length_append] at hl
  have h0 : ("" : String).length = 0 := rfl
  omega

lemma str_app_ne_empty_left {a : String} (b : String) (ha : a ≠ "") : a ++ b ≠ "" := by
  intro h
  apply ha
  apply eq_empty_of_length_eq_zero
  have hl := congrArg String.length h
  rw [String.length_append] at hl
  have h0 : ("" : String).length = 0 := rfl
  omega

lemma toString_natCast_int (n : ℕ) : toString ((n : ℤ)) = toString n := rfl

lemma goTrunc_sim60 (k : ℕ) : goTrunc (60 + 10 * (k : ℚ) / 10) = ((60 + k : ℕ) : ℤ) := by
  have h10 : (10 : ℚ) * k / 10 = (k : ℚ) := mul_div_cancel_left₀ _ (by norm_num)
  rw [h10]
  unfold goTrunc
  rw [if_neg (not_lt.mpr (by positivity))]
  rw [show ((60 : ℚ) + k) = (((60 + k : ℕ) : ℚ)) by push_cast; ring]
  exact Int.floor_natCast _

lemma goTrunc_sim45 (k : ℕ) : goTrunc (45 + 5 * (k : ℚ) / 10) = ((45 + k / 2 : ℕ) : ℤ) := by
  have h5 : (5 : ℚ) * k / 10 = (k : ℚ) / 2 := by ring
  unfold goTrunc
  rw [if_neg (not_lt.mpr (by positivity)), h5,
    show ((45 : ℚ) + (k : ℚ) / 2) = ((45 : ℤ) : ℚ) + (k : ℚ) / 2 by norm_num,
    Int.floor_int_add]
  have := Rat.floor_natCast_div_natCast k 2
  push_cast at this ⊢
  omega

lemma guard_ne_nil (l : List String) (sent : String) :
    (if l.length == 0 then [sent] else l) ≠ [] := by
  by_cases h : l.length == 0
  · rw [if_pos h]
    simp
  · rw [if_neg h]
    intro hc
    subst hc
    simp at h

/-! Characterization of the `getIPAddresses` folds. -/

lemma pkg_inner_foldl (nm : String) (as : List GoAddr) (acc : List String) :
    as.foldl (pkgSystem.ipEntryFold nm) acc =
      acc ++ as.filterMap
        (fun a =>
          (addrIP a).bind (fun ip =>
            if ipIsLoopback ip then none
            else (ipTo4 ip).map (fun ipv4 => ipv4String ipv4 ++ " (" ++ nm ++ ")"))) := by
  induction as generalizing acc with
  | nil => simp
  | cons a as ih =>
    simp only [List.foldl_cons, List.filterMap_cons]
    rcases ha : addrIP a with _ | ip
    · simp [pkgSystem.ipEntryFold, ha, ih]
    · cases hl : ipIsLoopback ip with
      | true => simp [pkgSystem.ipEntryFold, ha, hl, ih]
      | false =>
        rcases h4 : ipTo4 ip with _ | ipv4
        · simp [pkgSystem.ipEntryFold, ha, hl, h4, ih]
        · simp [pkgSystem.ipEntryFold, ha, hl, h4, ih]

lemma pkg_outer_foldl (ifaces : List GoInterface) (acc : List String) :
    ifaces.foldl pkgSystem.ifaceStep acc = acc ++ specQualifiedAddrs ifaces := by
  induction ifaces generalizing acc with
  | nil => simp [specQualifiedAddrs]
  | cons i is ih =>
    simp only [List.foldl_cons, specQualifiedAddrs, List.filter_cons]
    cases hl : i.flagLoopback with
    | true =>
      simp only [pkgSystem.ifaceStep, hl, if_true, Bool.not_true]
      simpa [specQualifiedAddrs] using ih acc
    | false =>
      rcases haddr : i.addrs with _ | as
      · simp only [pkgSystem.ifaceStep, hl, if_false, haddr]
        have := ih acc
        simp [specQualifiedAddrs, specEntriesOf, haddr] at this ⊢
        simpa using this
      · simp only [pkgSystem.ifaceStep, hl, if_false, haddr]
        rw [pkg_inner_foldl, ih]
        simp [specQualifiedAddrs, specEntriesOf, haddr, List.append_assoc]

lemma part001_ipEntryFold_eq : part001.ipEntryFold = pkgSystem.ipEntryFold := by
  funext nm acc a
  unfold part001.ipEntryFold pkgSystem.ipEntryFold
  rcases addrIP a with _ | ip
  · rfl
  · cases h : ipIsLoopback ip <;> simp [h]

lemma part001_ifaceStep_eq : part001.ifaceStep = pkgSystem.ifaceStep := by
  funext acc iface
  unfold part001.ifaceStep pkgSystem.ifaceStep
  rw [part001_ipEntryFold_eq]

/-! Field projections of `pkgSystem.GetSystemInfo` (each reads off the
corresponding branch of the source). -/

namespace pkgSystem

lemma info_Platform (env : Env) : (GetSystemInfo env).Platform = env.goos := rfl

lemma info_OSInfo (env : Env) :
    (GetSystemInfo env).OSInfo =
      if !env.hostErr then
        env.hostInfo.platform ++ " " ++ env.hostInfo.platformVersion ++
          " (" ++ env.hostInfo.platformFamily ++ ")"
      else "OS information unavailable" := rfl

lemma info_CPUInfo (env : Env) :
    (GetSystemInfo env).CPUInfo =
      match env.cpuInfo with
      | some cpuInfo =>
        if cpuInfo.length > 0 then
          toString cpuInfo.length ++ " x " ++ (cpuInfo.getD 0 ⟨"", 0⟩).modelName ++
            " @ " ++ fmtFixed 2 ((cpuInfo.getD 0 ⟨"", 0⟩).mhz / 1000) ++ " GHz"
        else "CPU information unavailable"
      | none => "CPU information unavailable" := rfl

lemma info_CPUUsage (env : Env) :
    (GetSystemInfo env).CPUUsage =
      match env.cpuPercent with
      | some cpuPercent =>
        if cpuPercent.length > 0 then
          "CPU Usage: " ++ padLeftWith '0' 2 (toString (goTrunc (cpuPercent.getD 0 0))) ++ "%"
        else "CPU Usage: N/A"
      | none => "CPU Usage: N/A" := rfl

lemma info_MemoryInfo (env : Env) :
    (GetSystemInfo env).MemoryInfo =
      match env.memInfo with
      | some memInfo =>
        fmtFixed 1 ((memInfo.total : ℚ) / (1024 * 1024 * 1024)) ++ " GB System Memory"
      | none => "Memory information unavailable" := rfl

lemma info_RAMUsage (env : Env) :
    (GetSystemInfo env).RAMUsage =
      match env.memInfo with
      | some memInfo =>
        "RAM Usage: " ++ padLeftWith '0' 2 (toString (goTrunc memInfo.usedPercent)) ++ "%"
      | none => "RAM Usage: N/A" := rfl

lemma info_UptimeInfo (env : Env) :
    (GetSystemInfo env).UptimeInfo =
      match env.memInfo with
      | some _ => "System uptime: " ++ formatDuration env.hostInfo.uptime
      | none => "Uptime information unavailable" := rfl

lemma info_GPUInfo (env : Env) : (GetSystemInfo env).GPUInfo = (getGPUInfo env).1 := rfl

lemma info_GPUTemp (env : Env) :
    (GetSystemInfo env).GPUTemp =
      if (getGPUInfo env).2 > 0 then
        "GPU Temp: " ++ toString (getGPUInfo env).2 ++ "°C"
      else
        "GPU Temp: " ++
          toString (goTrunc (60 + 10 * ((env.nowSecond % 10 : Nat) : ℚ) / 10)) ++ "°C" := rfl

lemma info_CPUTemp (env : Env) :
    (GetSystemInfo env).CPUTemp =
      if getCPUTemperature env > 0 then
        "CPU Temp: " ++ toString (getCPUTemperature env) ++ "°C"
      else
        "CPU Temp: " ++
          toString (goTrunc (45 + 5 * ((env.nowSecond % 10 : Nat) : ℚ) / 10)) ++ "°C" := rfl

lemma info_DiskInfo (env : Env) : (GetSystemInfo env).DiskInfo = getDiskInfo env := rfl

lemma info_NetworkInfo (env : Env) :
    (GetSystemInfo env).NetworkInfo = getNetworkInfo env := rfl

lemma info_IPAddresses (env : Env) :
    (GetSystemInfo env).IPAddresses = getIPAddresses env.netIfaces := rfl

/-- Every snapshot the collector returns is fully populated, provided
`runtime.GOOS` is the usual non-empty constant and the GPU probe's
parsed name is non-blank (the code copies the tool's reported name
verbatim, without checking it for emptiness). -/
lemma getSystemInfo_complete (env : Env) (hgoos : env.goos ≠ "")
    (hgpu : (getGPUInfo env).1 ≠ "") :
    SnapshotComplete (GetSystemInfo env) := by
  refine ⟨?_, ?_, ?_, ?_, ?_, ?_, ?_, ?_, ?_, ?_, ?_, ?_, ?_⟩
  · rw [info_CPUInfo]
    rcases env.cpuInfo with _ | l
    · decide
    · dsimp only
      split
      · exact str_app_ne_empty_right _ (by decide)
      · decide
  · rw [info_GPUInfo]; exact hgpu
  · rw [info_MemoryInfo]
    rcases env.memInfo with _ | m
    · decide
    · exact str_app_ne_empty_right _ (by decide)
  · rw [info_RAMUsage]
    rcases env.memInfo with _ | m
    · decide
    · exact str_app_ne_empty_right _ (by decide)
  · rw [info_CPUUsage]
    rcases env.cpuPercent with _ | l
    · decide
    · dsimp only
      split
      · exact str_app_ne_empty_right _ (by decide)
      · decide
  · rw [info_UptimeInfo]
    rcases env.memInfo with _ | m
    · dsimp only
      decide
    · exact str_app_ne_empty_left _ (by decide)
  · rw [info_IPAddresses]
    unfold getIPAddresses
    rcases env.netIfaces with _ | ifs
    · simp
    · exact guard_ne_nil _ _
  · rw [info_CPUTemp]
    split
    · exact str_app_ne_empty_right _ (by decide)
    · exact str_app_ne_empty_right _ (by decide)
  · rw [info_GPUTemp]
    split
    · exact str_app_ne_empty_right _ (by decide)
    · exact str_app_ne_empty_right _ (by decide)
  · rw [info_DiskInfo]
    unfold getDiskInfo
    rcases env.partitions with _ | ps
    · simp
    · exact guard_ne_nil _ _
  · rw [info_NetworkInfo]
    unfold getNetworkInfo
    rcases env.netIfaces with _ | ifs
    · simp
    · rcases env.ioCounters with _ | ios
      · simp
      · exact guard_ne_nil _ _
  · rw [info_Platform]; exact hgoos
  · rw [info_OSInfo]
    split
    · exact str_app_ne_empty_right _ (by decide)
    · decide

end pkgSystem

lemma pkgSystem.SystemInfo.ext_fields {a b : pkgSystem.SystemInfo}
    (h1 : a.CPUInfo = b.CPUInfo) (h2 : a.GPUInfo = b.GPUInfo)
    (h3 : a.MemoryInfo = b.MemoryInfo) (h4 : a.RAMUsage = b.RAMUsage)
    (h5 : a.CPUUsage = b.CPUUsage) (h6 : a.UptimeInfo = b.UptimeInfo)
    (h7 : a.IPAddresses = b.IPAddresses) (h8 : a.CPUTemp = b.CPUTemp)
    (h9 : a.GPUTemp = b.GPUTemp) (h10 : a.DiskInfo = b.DiskInfo)
    (h11 : a.NetworkInfo = b.NetworkInfo) (h12 : a.Platform = b.Platform)
    (h13 : a.OSInfo = b.OSInfo) : a = b := by
  cases a
  cases b
  simp only at h1 h2 h3 h4 h5 h6 h7 h8 h9 h10 h11 h12 h13
  subst h1 h2 h3 h4 h5 h6 h7 h8 h9 h10 h11 h12 h13
  rfl

lemma getGPUInfo_cases (env : pkgSystem.Env) :
    (pkgSystem.getGPUInfo env).1 = "GPU information unavailable" ∨
    (pkgSystem.getGPUInfo env).1 = "Apple GPU" ∨
    ∃ t : String, (pkgSystem.getGPUInfo env).1 = t.trim := by
  unfold pkgSystem.getGPUInfo
  split
  · rcases env.nvidiaSmi with _ | out
    · left; rfl
    · dsimp only
      split
      · right; right; exact ⟨_, rfl⟩
      · left; rfl
  · split
    · right; left; rfl
    · left; rfl

lemma inputCapture_eq (st : AppState) (k : GoKey) :
    inputCapture st k = (⟨st.stopped || isTerminateKey k⟩, k) := by
  cases st with
  | mk b =>
    unfold inputCapture appStop isTerminateKey
    cases k with
    | escape => simp
    | ctrlC => simp
    | keyOther c => simp

lemma processKeys_foldl (ks : List GoKey) (st : AppState) (acc : List GoKey) :
    ks.foldl (fun acc2 k =>
        let r := inputCapture acc2.1 k
        (r.1, acc2.2 ++ [r.2])) (st, acc) =
      (⟨st.stopped || ks.any isTerminateKey⟩, acc ++ ks) := by
  induction ks generalizing st acc with
  | nil => simp
  | cons k ks ih =>
    simp only [List.foldl_cons, List.any_cons]
    rw [inputCapture_eq]
    dsimp only
    rw [ih]
    simp [Bool.or_assoc]

lemma count_eventLoopRun_replicate (c : CycleShape) (n : ℕ) :
    (eventLoopRun (List.replicate n c)).count UIEvent.collectCall =
      n * c.queuedUpdateDraw.count UIEvent.collectCall := by
  induction n with
  | zero => simp [eventLoopRun]
  | succ m ih =>
    rw [List.replicate_succ]
    simp only [eventLoopRun, List.flatMap_cons] at ih ⊢
    rw [List.count_append, ih, Nat.succ_mul]
    omega

lemma countP_loopTrace (c : CycleShape) (p : Phase → Bool) (n : ℕ) :
    (loopTrace c n).countP p = n * (cyclePhases c).countP p := by
  induction n with
  | zero => simp [loopTrace]
  | succ m ih =>
    rw [loopTrace, List.countP_append, ih, Nat.succ_mul]
    omega

lemma roundHalfEven_natCast (m : ℕ) : roundHalfEven (m : ℚ) = m := by
  unfold roundHalfEven
  rw [Int.floor_natCast]
  norm_num

lemma fmtFixed1_42 : fmtFixed 1 (42 : ℚ) = "42.0" := by
  have h : roundHalfEven (|(42 : ℚ)| * 10 ^ 1) = ((420 : ℕ) : ℤ) := by
    rw [show (|(42 : ℚ)| * 10 ^ 1) = ((420 : ℕ) : ℚ) by norm_num]
    exact roundHalfEven_natCast 420
  unfold fmtFixed
  rw [h]
  decide

lemma fmtFixed1_77 : fmtFixed 1 (77 : ℚ) = "77.0" := by
  have h : roundHalfEven (|(77 : ℚ)| * 10 ^ 1) = ((770 : ℕ) : ℤ) := by
    rw [show (|(77 : ℚ)| * 10 ^ 1) = ((770 : ℕ) : ℚ) by norm_num]
    exact roundHalfEven_natCast 770
  unfold fmtFixed
  rw [h]
  decide

/-! ## Claim theorems -/

/-- C1 (counterexample): in the environment where every sub-probe fails,
the GPU- and CPU-temperature fields of the returned snapshot hold
fabricated simulated readings ("GPU Temp: 60°C", "CPU Temp: 45°C"),
which contain neither of the collector's placeholder markers — so a
failed field does not hold a sentinel value, contrary to the claim. -/
theorem c1_counterexample :
    (pkgSystem.GetSystemInfo pkgSystem.allFailEnv).GPUTemp = "GPU Temp: 60°C" ∧
    (pkgSystem.GetSystemInfo pkgSystem.allFailEnv).CPUTemp = "CPU Temp: 45°C" ∧
    textContains (pkgSystem.GetSystemInfo pkgSystem.allFailEnv).GPUTemp "unavailable" = false ∧
    textContains (pkgSystem.GetSystemInfo pkgSystem.allFailEnv).GPUTemp "N/A" = false ∧
    textContains (pkgSystem.GetSystemInfo pkgSystem.allFailEnv).CPUTemp "unavailable" = false ∧
    textContains (pkgSystem.GetSystemInfo pkgSystem.allFailEnv).CPUTemp "N/A" = false := by
  have hgpu : pkgSystem.getGPUInfo pkgSystem.allFailEnv = ("GPU information unavailable", 0) := rfl
  have hct : pkgSystem.getCPUTemperature pkgSystem.allFailEnv = 0 := rfl
  have hg1 : (pkgSystem.GetSystemInfo pkgSystem.allFailEnv).GPUTemp = "GPU Temp: 60°C" := by
    rw [pkgSystem.info_GPUTemp, hgpu, if_neg (by decide), goTrunc_sim60, toString_natCast_int]
    decide
  have hc1 : (pkgSystem.GetSystemInfo pkgSystem.allFailEnv).CPUTemp = "CPU Temp: 45°C" := by
    rw [pkgSystem.info_CPUTemp, hct, if_neg (by decide), goTrunc_sim45, toString_natCast_int]
    decide
  exact ⟨hg1, hc1, by rw [hg1]; decide, by rw [hg1]; decide,
    by rw [hc1]; decide, by rw [hc1]; decide⟩

/-- C1 (amended): `GetSystemInfo` is total — every combination of
sub-probe outcomes yields a fully populated snapshot, and when every
probe fails each field holds its sentinel, with two exceptions the code
makes deliberately or by slip: the CPU/GPU temperature fields hold
clock-derived simulated values, and the uptime sentinel is keyed to the
memory probe's error (reused `err` variable) rather than the host
probe's.  Completeness holds for every environment, granted the non-empty
`runtime.GOOS` constant and a non-blank GPU name from the external
tool. -/
theorem c1_collect_total_with_sentinels :
    (∀ env : pkgSystem.Env,
        env.goos = "linux" →
        env.hostErr = true →
        env.cpuInfo = none →
        env.cpuPercent = none →
        env.memInfo = none →
        env.nvidiaSmi = none →
        env.sensors = none →
        env.partitions = none →
        env.netIfaces = none →
        env.ioCounters = none →
        pkgSystem.GetSystemInfo env =
          { CPUInfo := "CPU information unavailable"
            GPUInfo := "GPU information unavailable"
            MemoryInfo := "Memory information unavailable"
            RAMUsage := "RAM Usage: N/A"
            CPUUsage := "CPU Usage: N/A"
            UptimeInfo := "Uptime information unavailable"
            IPAddresses := ["Error getting network interfaces"]
            CPUTemp := "CPU Temp: " ++ toString (45 + env.nowSecond % 10 / 2) ++ "°C"
            GPUTemp := "GPU Temp: " ++ toString (60 + env.nowSecond % 10) ++ "°C"
            DiskInfo := ["Disk information unavailable"]
            NetworkInfo := ["Network information unavailable"]
            Platform := "linux"
            OSInfo := "OS information unavailable" }) ∧
    (∀ env : pkgSystem.Env, env.goos ≠ "" → (pkgSystem.getGPUInfo env).1 ≠ "" →
        pkgSystem.SnapshotComplete (pkgSystem.GetSystemInfo env)) := by
  constructor
  · intro env hg hh hc hp hm hnv hs hpart hnet hio
    have hgpu : pkgSystem.getGPUInfo env = ("GPU information unavailable", 0) := by
      unfold pkgSystem.getGPUInfo
      rw [hg, hnv]
      rfl
    have hct : pkgSystem.getCPUTemperature env = 0 := by
      unfold pkgSystem.getCPUTemperature
      rw [hg, hs]
      rfl
    apply pkgSystem.SystemInfo.ext_fields
    · rw [pkgSystem.info_CPUInfo, hc]
    · rw [pkgSystem.info_GPUInfo, hgpu]
    · rw [pkgSystem.info_MemoryInfo, hm]
    · rw [pkgSystem.info_RAMUsage, hm]
    · rw [pkgSystem.info_CPUUsage, hp]
    · rw [pkgSystem.info_UptimeInfo, hm]
    · rw [pkgSystem.info_IPAddresses, hnet]
      rfl
    · rw [pkgSystem.info_CPUTemp, hct]
      rw [if_neg (by decide), goTrunc_sim45, toString_natCast_int]
    · rw [pkgSystem.info_GPUTemp, hgpu]
      rw [if_neg (by decide), goTrunc_sim60, toString_natCast_int]
    · rw [pkgSystem.info_DiskInfo]
      unfold pkgSystem.getDiskInfo
      rw [hpart]
    · rw [pkgSystem.info_NetworkInfo]
      unfold pkgSystem.getNetworkInfo
      rw [hnet]
    · rw [pkgSystem.info_Platform, hg]
    · rw [pkgSystem.info_OSInfo, hh]
      rfl
  · exact fun env h1 h2 => pkgSystem.getSystemInfo_complete env h1 h2

/-- C1 (witness): the theorem applied to the concrete all-probes-fail
environment: the call returns the explicit all-sentinel snapshot (with
the simulated temperatures at clock second 0) and that snapshot is
complete. -/
theorem c1_collect_total_with_sentinels_witness :
    pkgSystem.GetSystemInfo pkgSystem.allFailEnv =
      { CPUInfo := "CPU information unavailable"
        GPUInfo := "GPU information unavailable"
        MemoryInfo := "Memory information unavailable"
        RAMUsage := "RAM Usage: N/A"
        CPUUsage := "CPU Usage: N/A"
        UptimeInfo := "Uptime information unavailable"
        IPAddresses := ["Error getting network interfaces"]
        CPUTemp := "CPU Temp: 45°C"
        GPUTemp := "GPU Temp: 60°C"
        DiskInfo := ["Disk information unavailable"]
        NetworkInfo := ["Network information unavailable"]
        Platform := "linux"
        OSInfo := "OS information unavailable" } ∧
    pkgSystem.SnapshotComplete (pkgSystem.GetSystemInfo pkgSystem.allFailEnv) := by
  constructor
  · exact (c1_collect_total_with_sentinels.1 pkgSystem.allFailEnv
      rfl rfl rfl rfl rfl rfl rfl rfl rfl rfl).trans (by decide)
  · exact c1_collect_total_with_sentinels.2 pkgSystem.allFailEnv (by decide) (by decide)

/-- C2 (counterexample): the collector call sits inside the closure each
revision queues onto the render surface with `QueueUpdateDraw` — the
very closure that also redraws the panels — so metric collection runs on
the event-loop/redraw path, contrary to the claim. -/
theorem c2_counterexample :
    UIEvent.collectCall ∈ pkgUI.updateCycle.queuedUpdateDraw ∧
    UIEvent.collectCall ∈ pkgUI2.updateCycle.queuedUpdateDraw ∧
    UIEvent.collectCall ∈ srcUI.updateCycle.queuedUpdateDraw ∧
    UIEvent.setText Panel.header ∈ pkgUI.updateCycle.queuedUpdateDraw := by
  refine ⟨?_, ?_, ?_, ?_⟩ <;> decide

/-- C2 (amended): the background loop only queues work; the collection
itself executes on the render surface's single event-loop thread — over
`n` iterations the render thread executes exactly `n` collector calls
(one per queued update closure), in every revision. -/
theorem c2_collect_inside_render_loop (n : ℕ) :
    (eventLoopRun (List.replicate n pkgUI.updateCycle)).count UIEvent.collectCall = n ∧
    (eventLoopRun (List.replicate n pkgUI2.updateCycle)).count UIEvent.collectCall = n ∧
    (eventLoopRun (List.replicate n srcUI.updateCycle)).count UIEvent.collectCall = n := by
  refine ⟨?_, ?_, ?_⟩ <;>
    · rw [count_eventLoopRun_replicate]
      show n * 1 = n
      exact Nat.mul_one n

/-- C3 (counterexample): with zero interfaces the collector returns
`["No IPv4 addresses found"]`, not the sentinel text `"no addresses
found."` the claim quotes. -/
theorem c3_counterexample :
    pkgSystem.getIPAddresses (some []) = ["No IPv4 addresses found"] ∧
    pkgSystem.getIPAddresses (some []) ≠ ["no addresses found."] := by
  decide

/-- C3 (amended): for every interface set, the collector's list is
exactly the spec's qualifying addresses — the non-loopback IPv4
addresses of non-loopback interfaces whose address query succeeded, each
formatted `"<ip> (<iface>)"` — and when none qualify it is exactly the
one sentinel entry, whose text is "No IPv4 addresses found" (in the
part_001 revision "No IP addresses found"). -/
theorem c3_ipv4_filter_characterization (ifaces : List GoInterface) :
    (pkgSystem.getIPAddresses (some ifaces) =
      if specQualifiedAddrs ifaces = [] then ["No IPv4 addresses found"]
      else specQualifiedAddrs ifaces) ∧
    (part001.getIPAddresses (some ifaces) =
      if specQualifiedAddrs ifaces = [] then ["No IP addresses found"]
      else specQualifiedAddrs ifaces) := by
  constructor
  · show (let addrs := ifaces.foldl pkgSystem.ifaceStep []
      if addrs.length == 0 then ["No IPv4 addresses found"] else addrs) = _
    rw [pkg_outer_foldl]
    simp only [List.nil_append]
    cases h : specQualifiedAddrs ifaces with
    | nil => simp
    | cons x xs => simp
  · show (let addrs := ifaces.foldl part001.ifaceStep []
      if addrs.length == 0 then ["No IP addresses found"] else addrs) = _
    rw [part001_ifaceStep_eq, pkg_outer_foldl]
    simp only [List.nil_append]
    cases h : specQualifiedAddrs ifaces with
    | nil => simp
    | cons x xs => simp

/-- C4 (counterexample): the part_001 revision's snapshot always leaves
its declared `NetworkInfo` field empty (Go nil) — shown here at the
all-probes-fail environment, where every other field holds its
placeholder but `NetworkInfo` is the empty list, contradicting "no field
is ever left empty, nil, or absent". -/
theorem c4_counterexample :
    part001.GetSystemInfo part001.allFailEnv =
      { CPUInfo := "CPU information unavailable"
        GPUInfo := "GPU information unavailable"
        MemoryInfo := "Memory information unavailable"
        RAMUsage := "RAM Usage: N/A"
        CPUUsage := "CPU Usage: N/A"
        UptimeInfo := "Uptime information unavailable"
        IPAddresses := ["Error getting network interfaces"]
        NetworkInfo := []
        Platform := "linux"
        OSInfo := "OS information unavailable" } ∧
    (part001.GetSystemInfo part001.allFailEnv).NetworkInfo = [] := by
  constructor
  · decide
  · decide

/-- C4 (amended): in the `pkg/system` revision every snapshot field is
either its defined placeholder or a value of its formatted shape (the
GPU description may also be the external tool's trimmed output), the
temperature fields always carry a numeric reading, the list fields are
never empty, and `Platform` mirrors `runtime.GOOS`; in the part_001
revision the unassigned `NetworkInfo` field is always empty while
`IPAddresses` is never empty. -/
theorem c4_fields_value_or_placeholder :
    (∀ env : pkgSystem.Env,
        ((pkgSystem.GetSystemInfo env).CPUInfo = "CPU information unavailable" ∨
          ∃ (n : ℕ) (m : String) (q : ℚ), (pkgSystem.GetSystemInfo env).CPUInfo =
            toString n ++ " x " ++ m ++ " @ " ++ fmtFixed 2 q ++ " GHz") ∧
        ((pkgSystem.GetSystemInfo env).CPUUsage = "CPU Usage: N/A" ∨
          ∃ p : ℚ, (pkgSystem.GetSystemInfo env).CPUUsage =
            "CPU Usage: " ++ padLeftWith '0' 2 (toString (goTrunc p)) ++ "%") ∧
        ((pkgSystem.GetSystemInfo env).MemoryInfo = "Memory information unavailable" ∨
          ∃ t : ℕ, (pkgSystem.GetSystemInfo env).MemoryInfo =
            fmtFixed 1 ((t : ℚ) / (1024 * 1024 * 1024)) ++ " GB System Memory") ∧
        ((pkgSystem.GetSystemInfo env).RAMUsage = "RAM Usage: N/A" ∨
          ∃ p : ℚ, (pkgSystem.GetSystemInfo env).RAMUsage =
            "RAM Usage: " ++ padLeftWith '0' 2 (toString (goTrunc p)) ++ "%") ∧
        ((pkgSystem.GetSystemInfo env).UptimeInfo = "Uptime information unavailable" ∨
          ∃ u : ℕ, (pkgSystem.GetSystemInfo env).UptimeInfo =
            "System uptime: " ++ pkgSystem.formatDuration u) ∧
        ((pkgSystem.GetSystemInfo env).OSInfo = "OS information unavailable" ∨
          ∃ a b c : String, (pkgSystem.GetSystemInfo env).OSInfo =
            a ++ " " ++ b ++ " (" ++ c ++ ")") ∧
        ((pkgSystem.GetSystemInfo env).GPUInfo = "GPU information unavailable" ∨
          (pkgSystem.GetSystemInfo env).GPUInfo = "Apple GPU" ∨
          ∃ t : String, (pkgSystem.GetSystemInfo env).GPUInfo = t.trim) ∧
        (∃ z : ℤ, (pkgSystem.GetSystemInfo env).CPUTemp = "CPU Temp: " ++ toString z ++ "°C") ∧
        (∃ z : ℤ, (pkgSystem.GetSystemInfo env).GPUTemp = "GPU Temp: " ++ toString z ++ "°C") ∧
        (pkgSystem.GetSystemInfo env).IPAddresses ≠ [] ∧
        (pkgSystem.GetSystemInfo env).DiskInfo ≠ [] ∧
        (pkgSystem.GetSystemInfo env).NetworkInfo ≠ [] ∧
        (pkgSystem.GetSystemInfo env).Platform = env.goos) ∧
    (∀ env : part001.Env,
        (part001.GetSystemInfo env).NetworkInfo = [] ∧
        (part001.GetSystemInfo env).IPAddresses ≠ []) := by
  constructor
  · intro env
    refine ⟨?_, ?_, ?_, ?_, ?_, ?_, ?_, ?_, ?_, ?_, ?_, ?_, ?_⟩
    · rw [pkgSystem.info_CPUInfo]
      rcases env.cpuInfo with _ | l
      · left; rfl
      · dsimp only
        by_cases hl : l.length > 0
        · rw [if_pos hl]
          right
          exact ⟨l.length, (l.getD 0 ⟨"", 0⟩).modelName, (l.getD 0 ⟨"", 0⟩).mhz / 1000, rfl⟩
        · rw [if_neg hl]
          left
          rfl
    · rw [pkgSystem.info_CPUUsage]
      rcases env.cpuPercent with _ | l
      · left; rfl
      · dsimp only
        by_cases hl : l.length > 0
        · rw [if_pos hl]
          right
          exact ⟨l.getD 0 0, rfl⟩
        · rw [if_neg hl]
          left
          rfl
    · rw [pkgSystem.info_MemoryInfo]
      rcases env.memInfo with _ | m
      · left; rfl
      · right; exact ⟨m.total, rfl⟩
    · rw [pkgSystem.info_RAMUsage]
      rcases env.memInfo with _ | m
      · left; rfl
      · right; exact ⟨m.usedPercent, rfl⟩
    · rw [pkgSystem.info_UptimeInfo]
      rcases env.memInfo with _ | m
      · left; rfl
      · right; exact ⟨env.hostInfo.uptime, rfl⟩
    · rw [pkgSystem.info_OSInfo]
      cases hh : env.hostErr
      · right
        exact ⟨env.hostInfo.platform, env.hostInfo.platformVersion,
          env.hostInfo.platformFamily, rfl⟩
      · left; rfl
    · rw [pkgSystem.info_GPUInfo]
      exact getGPUInfo_cases env
    · rw [pkgSystem.info_CPUTemp]
      split
      · exact ⟨pkgSystem.getCPUTemperature env, rfl⟩
      · exact ⟨goTrunc (45 + 5 * ((env.nowSecond % 10 : ℕ) : ℚ) / 10), rfl⟩
    · rw [pkgSystem.info_GPUTemp]
      split
      · exact ⟨(pkgSystem.getGPUInfo env).2, rfl⟩
      · exact ⟨goTrunc (60 + 10 * ((env.nowSecond % 10 : ℕ) : ℚ) / 10), rfl⟩
    · rw [pkgSystem.info_IPAddresses]
      unfold pkgSystem.getIPAddresses
      rcases env.netIfaces with _ | ifs
      · simp
      · exact guard_ne_nil _ _
    · rw [pkgSystem.info_DiskInfo]
      unfold pkgSystem.getDiskInfo
      rcases env.partitions with _ | ps
      · simp
      · exact guard_ne_nil _ _
    · rw [pkgSystem.info_NetworkInfo]
      unfold pkgSystem.getNetworkInfo
      rcases env.netIfaces with _ | ifs
      · simp
      · rcases env.ioCounters with _ | ios
        · simp
        · exact guard_ne_nil _ _
    · rw [pkgSystem.info_Platform]
  · intro env
    constructor
    · show (part001.GetSystemInfo env).NetworkInfo = []
      unfold part001.GetSystemInfo
      rcases env.hostInfo with _ | h <;> rcases env.cpuInfo with _ | ci <;>
        rcases env.cpuPercent with _ | cp <;> rcases env.memInfo with _ | mi <;>
          dsimp only <;> split_ifs <;> rfl
    · show (part001.GetSystemInfo env).IPAddresses ≠ []
      have hip : (part001.GetSystemInfo env).IPAddresses =
          part001.getIPAddresses env.netIfaces := rfl
      rw [hip]
      unfold part001.getIPAddresses
      rcases env.netIfaces with _ | ifs
      · simp
      · exact guard_ne_nil _ _

/-- C5 (counterexample): with every probe failed, the rendered stats
panel shows fabricated temperature readings ("CPU Temp: 45°C",
"GPU Temp: 60°C") in place of the unavailable temperature metrics — the
drawn text carries no "Temp: N/A" and no "unavailable" marker, so an
unavailable metric is rendered as a substituted fabricated value,
contrary to the claim. -/
theorem c5_counterexample :
    pkgUI.statsText (pkgSystem.GetSystemInfo pkgSystem.allFailEnv) =
      "\n[::b]System Usage:[::]\n[::b]CPU Usage: N/A[::]\n[::b]RAM Usage: N/A[::]\n[::b]CPU Temp: 45°C[::]\n[::b]GPU Temp: 60°C[::]" ∧
    textContains (pkgUI.statsText (pkgSystem.GetSystemInfo pkgSystem.allFailEnv))
      "Temp: N/A" = false ∧
    textContains (pkgUI.statsText (pkgSystem.GetSystemInfo pkgSystem.allFailEnv))
      "unavailable" = false := by
  have hgpu : pkgSystem.getGPUInfo pkgSystem.allFailEnv = ("GPU information unavailable", 0) := rfl
  have hct : pkgSystem.getCPUTemperature pkgSystem.allFailEnv = 0 := rfl
  have hg1 : (pkgSystem.GetSystemInfo pkgSystem.allFailEnv).GPUTemp = "GPU Temp: 60°C" := by
    rw [pkgSystem.info_GPUTemp, hgpu, if_neg (by decide), goTrunc_sim60, toString_natCast_int]
    decide
  have hc1 : (pkgSystem.GetSystemInfo pkgSystem.allFailEnv).CPUTemp = "CPU Temp: 45°C" := by
    rw [pkgSystem.info_CPUTemp, hct, if_neg (by decide), goTrunc_sim45, toString_natCast_int]
    decide
  have hstats : pkgUI.statsText (pkgSystem.GetSystemInfo pkgSystem.allFailEnv) =
      "\n[::b]System Usage:[::]\n[::b]CPU Usage: N/A[::]\n[::b]RAM Usage: N/A[::]\n[::b]CPU Temp: 45°C[::]\n[::b]GPU Temp: 60°C[::]" := by
    unfold pkgUI.statsText
    rw [hg1, hc1]
    decide
  exact ⟨hstats, by rw [hstats]; decide, by rw [hstats]; decide⟩

/-- C5 (amended): every unavailable metric renders as its literal
placeholder — the GPU description falls back to "GPU information
unavailable" when the external tool fails, and that placeholder is drawn
verbatim into the header — except the CPU/GPU temperature metrics, which
the code deliberately replaces with clock-derived simulated values; the
part_001 revision's GPU probe likewise yields its static placeholder on
failure. -/
theorem c5_unavailable_renders_placeholder :
    (∀ env : pkgSystem.Env,
        env.goos = "linux" → env.nvidiaSmi = none → env.sensors = none →
        (pkgSystem.GetSystemInfo env).GPUInfo = "GPU information unavailable" ∧
        (pkgSystem.GetSystemInfo env).GPUTemp =
          "GPU Temp: " ++ toString (60 + env.nowSecond % 10) ++ "°C" ∧
        (pkgSystem.GetSystemInfo env).CPUTemp =
          "CPU Temp: " ++ toString (45 + env.nowSecond % 10 / 2) ++ "°C" ∧
        containsStr (pkgUI.headerText (pkgSystem.GetSystemInfo env))
          "GPU information unavailable") ∧
    (∀ goos : String, goos ≠ "darwin" →
        part001.getGPUInfo goos none = "GPU information unavailable") := by
  constructor
  · intro env hg hnv hs
    have hgpu : pkgSystem.getGPUInfo env = ("GPU information unavailable", 0) := by
      unfold pkgSystem.getGPUInfo
      rw [hg, hnv]
      rfl
    have hct : pkgSystem.getCPUTemperature env = 0 := by
      unfold pkgSystem.getCPUTemperature
      rw [hg, hs]
      rfl
    have h1 : (pkgSystem.GetSystemInfo env).GPUInfo = "GPU information unavailable" := by
      rw [pkgSystem.info_GPUInfo, hgpu]
    refine ⟨h1, ?_, ?_, ?_⟩
    · rw [pkgSystem.info_GPUTemp, hgpu, if_neg (by decide), goTrunc_sim60, toString_natCast_int]
    · rw [pkgSystem.info_CPUTemp, hct, if_neg (by decide), goTrunc_sim45, toString_natCast_int]
    · unfold pkgUI.headerText
      rw [h1]
      refine ⟨"\n\n[::b]NACIN EXAM SERVER[::]\n\n[::b]Sar Infocom Virtual Platform[::]\n\n[::b]" ++
          (pkgSystem.GetSystemInfo env).CPUInfo ++ "[::]\n[::b]" ++
          (pkgSystem.GetSystemInfo env).MemoryInfo ++ "[::]\n[::b]",
        "[::]\n[::b]" ++ (pkgSystem.GetSystemInfo env).UptimeInfo ++ "[::]\n\n", ?_⟩
      simp only [String.append_assoc]
  · intro goos hne
    have hb : (goos == "darwin") = false := beq_eq_false_iff_ne.mpr hne
    unfold part001.getGPUInfo
    rw [hb]
    simp only [Bool.false_eq_true, if_false]
    split
    · rfl
    · rfl

/-- C5 (witness): the amended theorem at the all-probes-fail environment
and at `goos = "linux"`: the GPU placeholder is produced and rendered,
and part_001's GPU probe yields its placeholder. -/
theorem c5_unavailable_renders_placeholder_witness :
    (pkgSystem.GetSystemInfo pkgSystem.allFailEnv).GPUInfo = "GPU information unavailable" ∧
    containsStr (pkgUI.headerText (pkgSystem.GetSystemInfo pkgSystem.allFailEnv))
      "GPU information unavailable" ∧
    part001.getGPUInfo "linux" none = "GPU information unavailable" := by
  exact ⟨(c5_unavailable_renders_placeholder.1 pkgSystem.allFailEnv rfl rfl rfl).1,
    (c5_unavailable_renders_placeholder.1 pkgSystem.allFailEnv rfl rfl rfl).2.2.2,
    c5_unavailable_renders_placeholder.2 "linux" (by decide)⟩

/-- C6 (counterexample): the revision `src/main.go` actually drives
(`UpdateSystemInfo`) sleeps 2000 ms per cycle, not ≈900 ms; and in every
revision the cycle's first phase is the queued collect-and-draw closure,
not the sleep — the loop queues first and sleeps after, so it does not
"sleep the fixed interval then invoke the collector". -/
theorem c6_counterexample :
    pkgUI2.updateCycle.sleepMs = 2000 ∧
    (cyclePhases pkgUI.updateCycle).headD (.sleep 0) =
      Phase.queuedUpdateDraw pkgUI.updateCycle.queuedUpdateDraw ∧
    cyclePhases pkgUI2.updateCycle ≠
      [Phase.sleep 900, Phase.queuedUpdateDraw pkgUI2.updateCycle.queuedUpdateDraw] := by
  refine ⟨rfl, rfl, by decide⟩

/-- C6 (amended): the loop repeats forever; each cycle queues exactly
one collect-and-draw closure and then sleeps the fixed interval —
2000 ms in the `UpdateSystemInfo` revision that `src/main.go` runs,
900 ms in the `updateSystemInfoPeriodically` revisions; over `n` cycles
there are exactly `n` sleeps of the fixed length and `n` closures each
containing exactly one collector call (the single-threaded event loop
then runs those closures one at a time, so invocations never overlap). -/
theorem c6_loop_cadence (n : ℕ) :
    loopTrace pkgUI2.updateCycle (n + 1) =
      Phase.queuedUpdateDraw pkgUI2.updateCycle.queuedUpdateDraw ::
        Phase.sleep 2000 :: loopTrace pkgUI2.updateCycle n ∧
    (loopTrace pkgUI2.updateCycle n).countP
      (fun ph => match ph with
        | Phase.queuedUpdateDraw evs => evs.count UIEvent.collectCall == 1
        | Phase.sleep _ => false) = n ∧
    (loopTrace pkgUI2.updateCycle n).countP (fun ph => ph == Phase.sleep 2000) = n ∧
    pkgUI.updateCycle.sleepMs = 900 ∧
    srcUI.updateCycle.sleepMs = 900 := by
  refine ⟨rfl, ?_, ?_, rfl, rfl⟩ <;>
    · rw [countP_loopTrace]
      show n * 1 = n
      exact Nat.mul_one n

/-- C7 (counterexample): under the `src/ui/layout.go` revision, whose
collector formats addresses as URLs, the middle panel drawn for the stub
address ("10.0.0.5", "eth0") reads `http://10.0.0.5/ (eth0)` and does
not contain the substring "10.0.0.5 (eth0)" the claim requires. -/
theorem c7_counterexample :
    srcUI.middleText (serverSystem.GetSystemInfo serverSystem.stubEnv).IPAddresses =
      "\n[::b]IP addresses:[::]\n[::b]http://10.0.0.5/ (eth0)[::]\n" ∧
    textContains (srcUI.middleText (serverSystem.GetSystemInfo serverSystem.stubEnv).IPAddresses)
      "10.0.0.5 (eth0)" = false := by
  constructor
  · decide
  · decide

set_option maxHeartbeats 1000000 in
/-- C7 (amended): with the stub metrics (CPU usage 42.0, memory used
77.0 %, address ("10.0.0.5","eth0")), the drawn text contains "42",
"77" and — in the `pkg` revision — "10.0.0.5 (eth0)"; the
`src/ui` revision draws the address as "http://10.0.0.5/ (eth0)"
instead. -/
theorem c7_stub_renders_metrics :
    textContains (pkgUI.statsText (pkgSystem.GetSystemInfo pkgSystem.stubEnv)) "42" = true ∧
    textContains (pkgUI.statsText (pkgSystem.GetSystemInfo pkgSystem.stubEnv)) "77" = true ∧
    textContains (pkgUI.middleText (pkgSystem.GetSystemInfo pkgSystem.stubEnv).IPAddresses)
      "10.0.0.5 (eth0)" = true ∧
    textContains (srcUI.statsText (serverSystem.GetSystemInfo serverSystem.stubEnv)) "42" = true ∧
    textContains (srcUI.statsText (serverSystem.GetSystemInfo serverSystem.stubEnv)) "77" = true ∧
    textContains (srcUI.middleText (serverSystem.GetSystemInfo serverSystem.stubEnv).IPAddresses)
      "http://10.0.0.5/ (eth0)" = true := by
  have hstats : srcUI.statsText (serverSystem.GetSystemInfo serverSystem.stubEnv) =
      "\n[::b]CPU Usage: 42.0%[::]\n[::b]RAM Usage: 77.0%[::]\n" := by
    show "\n[::b]" ++ ("CPU Usage: " ++ fmtFixed 1 42 ++ "%") ++ "[::]\n[::b]" ++
        ("RAM Usage: " ++ fmtFixed 1 77 ++ "%") ++ "[::]\n" = _
    rw [fmtFixed1_42, fmtFixed1_77]
    decide
  refine ⟨by decide, by decide, by decide, ?_, ?_, by decide⟩
  · rw [hstats]
    decide
  · rw [hstats]
    decide

/-- C8: the input-capture handler requests a stop exactly on the escape
and Ctrl-C keys and passes every event through unmodified; a stop
request is a boolean latch, so repeated terminate presses leave the
application in the same stopped state with no error, and a key sequence
stops the application iff it contains a terminate key. -/
theorem c8_terminate_keys :
    (∀ st : AppState, ∀ k : GoKey,
        (inputCapture st k).2 = k ∧
        (inputCapture st k).1.stopped = (st.stopped || isTerminateKey k)) ∧
    (∀ k : GoKey, isTerminateKey k = true ↔ (k = GoKey.escape ∨ k = GoKey.ctrlC)) ∧
    (∀ ks : List GoKey,
        (processKeys ⟨false⟩ ks).2 = ks ∧
        (processKeys ⟨false⟩ ks).1.stopped = ks.any isTerminateKey) := by
  refine ⟨?_, ?_, ?_⟩
  · intro st k
    rw [inputCapture_eq]
    exact ⟨rfl, rfl⟩
  · intro k
    unfold isTerminateKey
    cases k <;> simp
  · intro ks
    unfold processKeys
    rw [processKeys_foldl]
    simp

/-- C9: when `Run` fails (the render surface cannot initialize), both
`main` revisions terminate with a non-zero status — `panic` (status 2)
in `src/main.go`, `log.Fatalf` (status 1) in part_002 — and the error
text appears on standard error; when `Run` succeeds, both exit with
status 0 and print nothing, with no other path (no partial-UI
fallback). -/
theorem c9_fatal_startup_failure :
    (∀ e : String,
        (goMain.mainPkg (some e)).1 ≠ 0 ∧
        containsStr (goMain.mainPkg (some e)).2 e) ∧
    (∀ ts e : String,
        (goMain.mainPart002 ts (some e)).1 ≠ 0 ∧
        containsStr (goMain.mainPart002 ts (some e)).2 e) ∧
    goMain.mainPkg none = (0, "") ∧
    (∀ ts, goMain.mainPart002 ts none = (0, "")) := by
  refine ⟨?_, ?_, rfl, fun ts => rfl⟩
  · intro e
    constructor
    · show (2 : ℕ) ≠ 0
      decide
    · refine ⟨"panic: ", "\n", ?_⟩
      show "panic: " ++ (e ++ "\n") = "panic: " ++ e ++ "\n"
      rw [String.append_assoc]
  · intro ts e
    constructor
    · show (1 : ℕ) ≠ 0
      decide
    · refine ⟨ts ++ "Application error: ", "\n", ?_⟩
      show ts ++ ("Application error: " ++ (e ++ "\n")) =
        ts ++ "Application error: " ++ e ++ "\n"
      simp [String.append_assoc]

/-- C10: when interface enumeration itself fails, every revision of the
collector returns exactly the one sentinel entry "Error getting network
interfaces" (and no error escapes — the function's only way to report
it is that entry), and that text is distinct from both empty-result
sentinels. -/
theorem c10_interface_enumeration_error :
    pkgSystem.getIPAddresses none = ["Error getting network interfaces"] ∧
    serverSystem.getIPAddresses none = ["Error getting network interfaces"] ∧
    part001.getIPAddresses none = ["Error getting network interfaces"] ∧
    ("Error getting network interfaces" : String) ≠ "No IPv4 addresses found" ∧
    ("Error getting network interfaces" : String) ≠ "No IP addresses found" := by
  refine ⟨rfl, rfl, rfl, by decide, by decide⟩

end NacinOS
